import Mathlib

/-!
Verification of the model-registry / drag-target-binder behaviour of the
kool-ltd product-viewer repository.

The repository consists of five near-identical prototypes of a browser 3D/AR
viewer.  The behaviour under scrutiny is the lifecycle of the model registry
(`this.loadedModels`, a JS `Map`), the auxiliary `this.draggableObjects`
array, scene membership of the loaded objects, and the object list the
`DragControls` instance — the drag-target binding — is constructed over.

Variants embedded here:
  * `src/js/app.js`       — the `AppState` operations (`loadModelSuccess`,
                            `loadModelFailure`, `clearExistingModels`,
                            `updateDragControls`, `fileInputOnChange`);
  * `src/unnamed/part_000` — the `P0State` operations (`loadModelP0`,
                            `setupControlsP0`, `handleFileUploadP0`);
  * `src/unnamed/part_001` — shares `AppState`; its upload handler is
                            `onChangeP1` (it does not clear);
  * `src/unnamed/part_002` — the `P2State` operations (`loadModelOkP2`,
                            `updateDragControlsP2`).

Rendering, camera fitting, lights, AR session plumbing and object transforms
are out of scope: they do not touch the registry, the draggable array, the
scene-membership list, or the drag-target binding.
-/

namespace ProductViewer

/-- A loaded 3D object graph (the `gltf.scene` root handle).  `id`
distinguishes distinct object instances; `isDraggable` mirrors
`userData.isDraggable`, which is absent (`false`) on a freshly parsed model
and set to `true` by the load callbacks of `app.js`, `part_001`, `part_003`. -/
structure Model where
  id : Nat
  isDraggable : Bool
deriving DecidableEq, Repr

/-- Console diagnostics emitted by the load callbacks. -/
inductive LogEntry where
  | loaded (name : String)
  | loadError (name : String)
deriving DecidableEq, Repr

/-- A user-supplied file from the multi-file upload input. -/
structure FileEntry where
  name : String
deriving DecidableEq, Repr

/-- A pending `loadModel(url, name)` call issued by an upload handler. -/
structure LoadRequest where
  url : String
  name : String
deriving DecidableEq, Repr

/-- `URL.createObjectURL(file)`: the temporary blob URL minted for a file. -/
def blobUrl (f : FileEntry) : String := "blob:" ++ f.name

/-- JS `Map.prototype.set`: replace the value in place if the key is present
(insertion order kept), otherwise append a new entry at the end. -/
def mapSet : List (String × Model) → String → Model → List (String × Model)
  | [], k, v => [(k, v)]
  | p :: rest, k, v => if p.1 = k then (k, v) :: rest else p :: mapSet rest k v

/-- JS `Map.prototype.get` as an option-valued lookup. -/
def mapGet : List (String × Model) → String → Option Model
  | [], _ => none
  | p :: rest, k => if p.1 = k then some p.2 else mapGet rest k

/-- `Array.from(map.values())`: the values in insertion order. -/
def mapValues (m : List (String × Model)) : List Model := m.map (·.2)

/-- `scene.add(object)` for a root object: three.js first detaches the object
from its current parent (so a child occurs at most once) and then appends it
to the children list. -/
def sceneAdd (scene : List Model) (m : Model) : List Model :=
  scene.erase m ++ [m]

/-- `scene.remove(object)`: drop the object from the children list. -/
def sceneRemove (scene : List Model) (m : Model) : List Model :=
  scene.erase m

/-- JS `String.prototype.replace` with a string pattern rewrites only the
first occurrence; auxiliary recursion over the character list. -/
def replaceFirstAux (pat rep : List Char) : List Char → List Char
  | [] => []
  | c :: cs =>
    if pat.isPrefixOf (c :: cs) then rep ++ (c :: cs).drop pat.length
    else c :: replaceFirstAux pat rep cs

/-- JS `s.replace(pat, rep)` for string patterns (first occurrence only). -/
def replaceFirst (s pat rep : String) : String :=
  ⟨replaceFirstAux pat.data rep.data s.data⟩

/-- `file.name.replace('.glb', '').replace('.gltf', '')`. -/
def stripExt (n : String) : String :=
  replaceFirst (replaceFirst n ".glb" "") ".gltf" ""

/-- The mutable state of the `App` class of `src/js/app.js` (shared by
`part_001`, whose class has the same fields), restricted to the fields the
registry lifecycle touches.  `dragControls` is the object list the current
`DragControls` instance was constructed over.  `created`/`revoked` record the
blob-URL ledger of the host browser (`URL.createObjectURL` /
`URL.revokeObjectURL`). -/
structure AppState where
  loadedModels : List (String × Model)
  draggableObjects : List Model
  scene : List Model
  dragControls : List Model
  log : List LogEntry
  created : List String
  revoked : List String
deriving DecidableEq, Repr

/-- State after the `App` constructor: empty registry, empty draggable array,
and `DragControls` constructed over the (empty) `draggableObjects` array. -/
def initialState : AppState :=
  { loadedModels := [], draggableObjects := [], scene := [],
    dragControls := [], log := [], created := [], revoked := [] }

/-- `model.userData.isDraggable = true`. -/
def setDraggable (m : Model) : Model := { m with isDraggable := true }

/-- `App.updateDragControls` (app.js lines 347-354): dispose the old
`DragControls` and construct a new one over
`Array.from(this.loadedModels.values())`. -/
def updateDragControls (s : AppState) : AppState :=
  { s with dragControls := mapValues s.loadedModels }

/-- The success callback of `App.loadModel` (app.js lines 328-337): flag the
model draggable, push it onto `draggableObjects`, add it to the scene, set it
in the registry, rebuild the drag controls, and log the load.  (The
`fitCameraToScene` call only moves the camera.) -/
def loadModelSuccess (s : AppState) (name : String) (gltfScene : Model) : AppState :=
  let model := setDraggable gltfScene
  updateDragControls
    { s with
      draggableObjects := s.draggableObjects ++ [model],
      scene := sceneAdd s.scene model,
      loadedModels := mapSet s.loadedModels name model,
      log := s.log ++ [LogEntry.loaded name] }

/-- The error callback of `App.loadModel` (app.js lines 341-343): a single
`console.error` and nothing else. -/
def loadModelFailure (s : AppState) (name : String) : AppState :=
  { s with log := s.log ++ [LogEntry.loadError name] }

/-- `App.clearExistingModels` (app.js lines 315-322): remove every registry
value from the scene, clear the registry, truncate `draggableObjects` to
length 0, and rebuild the drag controls. -/
def clearExistingModels (s : AppState) : AppState :=
  updateDragControls
    { s with
      scene := (mapValues s.loadedModels).foldl sceneRemove s.scene,
      loadedModels := [],
      draggableObjects := [] }

/-- The object list the AR `touchstart` handler raycasts over
(app.js line 210: `raycaster.intersectObjects(this.draggableObjects, true)`). -/
def touchstartCandidates (s : AppState) : List Model := s.draggableObjects

/-- A settled registry operation: a `loadModel` completion (success with the
parsed root object, or failure) or a `clearExistingModels` call. -/
inductive Event where
  | loadOk (name : String) (m : Model)
  | loadFail (name : String)
  | clear
deriving DecidableEq, Repr

/-- Apply one settled operation to the app state. -/
def step (s : AppState) : Event → AppState
  | .loadOk name m => loadModelSuccess s name m
  | .loadFail name => loadModelFailure s name
  | .clear => clearExistingModels s

/-- Run a sequence of settled operations. -/
def run (s : AppState) (evs : List Event) : AppState := evs.foldl step s

/-- Number of successful load completions in an event sequence. -/
def countLoadOks (evs : List Event) : Nat :=
  evs.countP fun e => match e with | .loadOk _ _ => true | _ => false

/-- Number of `clearExistingModels` calls in an event sequence. -/
def countClears (evs : List Event) : Nat :=
  evs.countP fun e => match e with | .clear => true | _ => false

/-- `fileInput.onchange` of app.js (lines 300-308, identical in `part_003`
lines 289-298): first `clearExistingModels()`, then for each selected file
mint a blob URL and issue a `loadModel(url, strippedName)` call.  Returns the
state after the handler together with the initiated (still pending) load
requests. -/
def fileInputOnChange (s : AppState) (files : List FileEntry) :
    AppState × List LoadRequest :=
  let s := clearExistingModels s
  ({ s with created := s.created ++ files.map blobUrl },
   files.map fun f => ⟨blobUrl f, stripExt f.name⟩)

/-- `fileInput.onchange` of `part_001` (lines 120-127): identical to the
app.js handler except that it performs no clear before issuing the loads. -/
def onChangeP1 (s : AppState) (files : List FileEntry) :
    AppState × List LoadRequest :=
  ({ s with created := s.created ++ files.map blobUrl },
   files.map fun f => ⟨blobUrl f, stripExt f.name⟩)

/-- The state of the `App` class of `src/unnamed/part_000`: this variant has
no `draggableObjects` array; `dragControls` is the list the instance held in
`this.dragControls` was constructed over.  `created`/`revoked` is the same
blob-URL ledger as in `AppState`. -/
structure P0State where
  loadedModels : List (String × Model)
  scene : List Model
  dragControls : List Model
  log : List LogEntry
  created : List String
  revoked : List String
deriving DecidableEq, Repr

/-- `part_000` state after the constructor (registry assigned `new Map()` at
the end of the constructor; `setupControls` built `DragControls([])`). -/
def initP0 : P0State :=
  { loadedModels := [], scene := [], dragControls := [],
    log := [], created := [], revoked := [] }

/-- `part_000` `setupControls` (lines 60-81): re-creates the orbit controls
and assigns `this.dragControls = new DragControls([], ...)` — the active
drag-target binding becomes the empty list. -/
def setupControlsP0 (s : P0State) : P0State :=
  { s with dragControls := [] }

/-- Outcome of an awaited `loader.loadAsync(url)`: the parsed asset or a
rejection. -/
inductive LoadResult where
  | ok (m : Model)
  | err (msg : String)
deriving DecidableEq, Repr

/-- `part_000` `async loadModel(url, name)` (lines 94-120).  On success:
store the original scale (a transform, unmodelled), add to scene, set in the
registry, dispose the old `DragControls`, construct one over the registry
values, then call `setupControls()` (which immediately rebinds
`this.dragControls` over `[]`), and return the model.  On a loader error the
`catch` logs once and the function returns `undefined` (`none`); it never
rethrows. -/
def loadModelP0 (s : P0State) (name : String) (res : LoadResult) :
    P0State × Option Model :=
  match res with
  | .ok gltfScene =>
    let model := gltfScene
    let s :=
      { s with
        scene := sceneAdd s.scene model,
        loadedModels := mapSet s.loadedModels name model,
        dragControls := mapValues (mapSet s.loadedModels name model) }
    (setupControlsP0 s, some model)
  | .err msg =>
    ({ s with log := s.log ++ [LogEntry.loadError msg] }, none)

/-- One iteration of the `part_000` upload loop (lines 152-156): mint a blob
URL for the file, `await loadModel(url, file.name)` (whatever its outcome),
then revoke that URL. -/
def uploadStepP0 (s : P0State) (fr : FileEntry × LoadResult) : P0State :=
  let u := blobUrl fr.1
  let s := { s with created := s.created ++ [u] }
  let s := (loadModelP0 s fr.1.name fr.2).1
  { s with revoked := s.revoked ++ [u] }

/-- The clearing prefix of `part_000` `handleFileUpload` (lines 145-149):
remove every registry value from the scene and clear the registry. -/
def clearModelsP0 (s : P0State) : P0State :=
  { s with
    scene := (mapValues s.loadedModels).foldl sceneRemove s.scene,
    loadedModels := [] }

/-- `part_000` `async handleFileUpload(files)` (lines 144-157): remove every
registry value from the scene and clear the registry, then run the upload
loop sequentially over the selected files. -/
def handleFileUploadP0 (s : P0State) (files : List (FileEntry × LoadResult)) :
    P0State :=
  files.foldl uploadStepP0 (clearModelsP0 s)

/-- The state of the `App` class of `src/unnamed/part_002`, which has no
AR/upload surface and no blob-URL activity. -/
structure P2State where
  loadedModels : List (String × Model)
  draggableObjects : List Model
  scene : List Model
  dragControls : List Model
  log : List LogEntry
deriving DecidableEq, Repr

/-- `part_002` state after the constructor. -/
def initP2 : P2State :=
  { loadedModels := [], draggableObjects := [], scene := [],
    dragControls := [], log := [] }

/-- `part_002` `updateDragControls` (lines 79-91): unlike app.js, this
variant reassigns `this.draggableObjects = Array.from(this.loadedModels.values())`
before constructing the new `DragControls` over it. -/
def updateDragControlsP2 (s : P2State) : P2State :=
  { s with
    draggableObjects := mapValues s.loadedModels,
    dragControls := mapValues s.loadedModels }

/-- The success callback of `part_002` `loadModel` (lines 97-112): centre the
model (a transform, unmodelled), add it to the scene, set it in the registry,
rebuild the drag controls, log.  No `userData.isDraggable` flag is set in
this variant. -/
def loadModelOkP2 (s : P2State) (name : String) (gltfScene : Model) : P2State :=
  updateDragControlsP2
    { s with
      scene := sceneAdd s.scene gltfScene,
      loadedModels := mapSet s.loadedModels name gltfScene,
      log := s.log ++ [LogEntry.loaded name] }

/-! ### Helper lemmas -/

theorem mapGet_mapSet_self (l : List (String × Model)) (k : String) (v : Model) :
    mapGet (mapSet l k v) k = some v := by
  induction l with
  | nil => simp [mapSet, mapGet]
  | cons p rest ih =>
    by_cases h : p.1 = k
    · simp [mapSet, mapGet, h]
    · simp [mapSet, mapGet, h, ih]

theorem length_mapSet_of_isSome (l : List (String × Model)) (k : String) (v : Model)
    (h : (mapGet l k).isSome = true) : (mapSet l k v).length = l.length := by
  induction l with
  | nil => simp [mapGet] at h
  | cons p rest ih =>
    by_cases hp : p.1 = k
    · simp [mapSet, hp]
    · simp [mapGet, hp] at h
      simp [mapSet, hp, ih h]

theorem not_mem_foldl_sceneRemove_of_not_mem {m : Model} :
    ∀ (vs l : List Model), m ∉ l → m ∉ vs.foldl sceneRemove l := by
  intro vs
  induction vs with
  | nil => intro l h; simpa using h
  | cons v vs ih =>
    intro l h
    simp only [List.foldl_cons]
    exact ih (sceneRemove l v) fun hm => h (List.mem_of_mem_erase hm)

theorem not_mem_foldl_sceneRemove {m : Model} :
    ∀ (vs l : List Model), m ∈ vs → l.count m ≤ 1 → m ∉ vs.foldl sceneRemove l := by
  intro vs
  induction vs with
  | nil => intro l h; simp at h
  | cons v vs ih =>
    intro l hmem hcount
    simp only [List.foldl_cons]
    by_cases hv : v = m
    · subst hv
      have h0 : (l.erase v).count v = 0 := by
        rw [List.count_erase_self]; omega
      exact not_mem_foldl_sceneRemove_of_not_mem vs (sceneRemove l v)
        (by simpa [sceneRemove] using List.count_eq_zero.mp h0)
    · have hmem' : m ∈ vs := by
        rcases List.mem_cons.mp hmem with h | h
        · exact absurd h.symm hv
        · exact h
      have hcount' : (l.erase v).count m ≤ 1 := by
        rw [List.count_erase_of_ne (fun h => hv h.symm)]; exact hcount
      exact ih (sceneRemove l v) hmem' hcount'

theorem run_nil (s : AppState) : run s [] = s := rfl

theorem run_cons (s : AppState) (e : Event) (evs : List Event) :
    run s (e :: evs) = run (step s e) evs := rfl

theorem step_created (s : AppState) (e : Event) : (step s e).created = s.created := by
  cases e <;>
    simp [step, loadModelSuccess, loadModelFailure, clearExistingModels, updateDragControls]

theorem step_revoked (s : AppState) (e : Event) : (step s e).revoked = s.revoked := by
  cases e <;>
    simp [step, loadModelSuccess, loadModelFailure, clearExistingModels, updateDragControls]

theorem run_created : ∀ (evs : List Event) (s : AppState),
    (run s evs).created = s.created := by
  intro evs
  induction evs with
  | nil => intro s; rfl
  | cons e evs ih => intro s; rw [run_cons, ih, step_created]

theorem run_revoked : ∀ (evs : List Event) (s : AppState),
    (run s evs).revoked = s.revoked := by
  intro evs
  induction evs with
  | nil => intro s; rfl
  | cons e evs ih => intro s; rw [run_cons, ih, step_revoked]

/-- The registry-relevant fields of an `AppState` (everything but the console
log and the blob-URL ledger), used to state that a load failure influences
none of them, now or later. -/
structure CoreState where
  loadedModels : List (String × Model)
  draggableObjects : List Model
  scene : List Model
  dragControls : List Model
deriving DecidableEq, Repr

def core (s : AppState) : CoreState :=
  ⟨s.loadedModels, s.draggableObjects, s.scene, s.dragControls⟩

theorem core_step {s1 s2 : AppState} (h : core s1 = core s2) (e : Event) :
    core (step s1 e) = core (step s2 e) := by
  have h1 : s1.loadedModels = s2.loadedModels := congrArg CoreState.loadedModels h
  have h2 : s1.draggableObjects = s2.draggableObjects :=
    congrArg CoreState.draggableObjects h
  have h3 : s1.scene = s2.scene := congrArg CoreState.scene h
  have h4 : s1.dragControls = s2.dragControls := congrArg CoreState.dragControls h
  cases e <;>
    simp [step, loadModelSuccess, loadModelFailure, clearExistingModels,
      updateDragControls, core, h1, h2, h3, h4]

theorem core_run : ∀ (evs : List Event) {s1 s2 : AppState},
    core s1 = core s2 → core (run s1 evs) = core (run s2 evs) := by
  intro evs
  induction evs with
  | nil => intro s1 s2 h; exact h
  | cons e evs ih =>
    intro s1 s2 h
    rw [run_cons, run_cons]
    exact ih (core_step h e)

theorem run_draggable_length :
    ∀ (evs : List Event) (s : AppState), countClears evs = 0 →
      (run s evs).draggableObjects.length
        = s.draggableObjects.length + countLoadOks evs := by
  intro evs
  induction evs with
  | nil => intro s _; simp [run, countLoadOks]
  | cons e evs ih =>
    intro s hc
    rw [run_cons]
    cases e with
    | loadOk name m =>
      have hc' : countClears evs = 0 := by
        simpa [countClears, List.countP_cons] using hc
      have := ih (step s (Event.loadOk name m)) hc'
      rw [this]
      simp [step, loadModelSuccess, updateDragControls, countLoadOks, List.countP_cons]
      omega
    | loadFail name =>
      have hc' : countClears evs = 0 := by
        simpa [countClears, List.countP_cons] using hc
      have := ih (step s (Event.loadFail name)) hc'
      rw [this]
      simp [step, loadModelFailure, countLoadOks, List.countP_cons]
    | clear =>
      exfalso
      simp [countClears, List.countP_cons] at hc

theorem loadModelP0_created (s : P0State) (name : String) (r : LoadResult) :
    (loadModelP0 s name r).1.created = s.created := by
  cases r <;> rfl

theorem loadModelP0_revoked (s : P0State) (name : String) (r : LoadResult) :
    (loadModelP0 s name r).1.revoked = s.revoked := by
  cases r <;> rfl

theorem uploadFoldP0_urls :
    ∀ (files : List (FileEntry × LoadResult)) (s : P0State),
      (files.foldl uploadStepP0 s).created
          = s.created ++ files.map (fun fr => blobUrl fr.1) ∧
      (files.foldl uploadStepP0 s).revoked
          = s.revoked ++ files.map (fun fr => blobUrl fr.1) := by
  intro files
  induction files with
  | nil => intro s; simp
  | cons fr files ih =>
    intro s
    simp only [List.foldl_cons, List.map_cons]
    have h := ih (uploadStepP0 s fr)
    have hc : (uploadStepP0 s fr).created = s.created ++ [blobUrl fr.1] := by
      simp [uploadStepP0, loadModelP0_created]
    have hr : (uploadStepP0 s fr).revoked = s.revoked ++ [blobUrl fr.1] := by
      simp [uploadStepP0, loadModelP0_revoked]
    rw [h.1, h.2, hc, hr]
    simp

/-! ### Claim theorems -/

/-- C1: the claimed invariant — the object list the active `DragControls`
instance is constructed over equals the registry's root-node set after every
settled sequence — is broken by `part_000`: after a single successful
`loadModel("blade")` from the fresh state, the registry holds the loaded
model but `this.dragControls` was rebound over the empty list by the
`setupControls()` call at the end of `loadModel`. -/
theorem C1_part000_dragTargets_diverge_from_registry :
    (loadModelP0 initP0 "blade" (LoadResult.ok ⟨1, false⟩)).1.dragControls = [] ∧
    mapValues (loadModelP0 initP0 "blade" (LoadResult.ok ⟨1, false⟩)).1.loadedModels
      = [⟨1, false⟩] ∧
    (loadModelP0 initP0 "blade" (LoadResult.ok ⟨1, false⟩)).1.dragControls ≠
      mapValues (loadModelP0 initP0 "blade" (LoadResult.ok ⟨1, false⟩)).1.loadedModels := by
  decide

/-- C2 (amended): after every successful `loadModel` completion, in app.js
the registry maps the name to the loaded object, the object is flagged
`userData.isDraggable = true`, it is in the scene, and the drag-target
binding is rebuilt over the full registry value set; in `part_002` the same
holds except that no draggable flag is set (its rebuild also reassigns
`draggableObjects` to the registry values). -/
theorem C2_loadModel_success_postconditions :
    (∀ (s : AppState) (name : String) (m : Model),
        mapGet (loadModelSuccess s name m).loadedModels name = some (setDraggable m) ∧
        (setDraggable m).isDraggable = true ∧
        setDraggable m ∈ (loadModelSuccess s name m).scene ∧
        (loadModelSuccess s name m).dragControls
          = mapValues (loadModelSuccess s name m).loadedModels) ∧
    (∀ (s : P2State) (name : String) (m : Model),
        mapGet (loadModelOkP2 s name m).loadedModels name = some m ∧
        m ∈ (loadModelOkP2 s name m).scene ∧
        (loadModelOkP2 s name m).dragControls
          = mapValues (loadModelOkP2 s name m).loadedModels ∧
        (loadModelOkP2 s name m).draggableObjects
          = mapValues (loadModelOkP2 s name m).loadedModels) := by
  constructor
  · intro s name m
    refine ⟨?_, rfl, ?_, ?_⟩
    · simp only [loadModelSuccess, updateDragControls]
      exact mapGet_mapSet_self _ _ _
    · simp [loadModelSuccess, updateDragControls, sceneAdd]
    · simp [loadModelSuccess, updateDragControls]
  · intro s name m
    refine ⟨?_, ?_, ?_, ?_⟩
    · simp only [loadModelOkP2, updateDragControlsP2]
      exact mapGet_mapSet_self _ _ _
    · simp [loadModelOkP2, updateDragControlsP2, sceneAdd]
    · simp [loadModelOkP2, updateDragControlsP2]
    · simp [loadModelOkP2, updateDragControlsP2]

/-- C2 counterexample: in `part_002`, a successful `loadModel` leaves the
registry entry with `userData.isDraggable` unset (`false`), refuting the
claim that every successful load flags the object draggable. -/
theorem C2_cex_part002_not_flagged :
    mapGet (loadModelOkP2 initP2 "blade" ⟨1, false⟩).loadedModels "blade"
      = some ⟨1, false⟩ ∧
    (⟨1, false⟩ : Model).isDraggable = false := by
  decide

/-- C3: `clearExistingModels` empties the registry, the draggable array and
the drag-target binding, removes every registry value from the scene, and a
model loaded then cleared is absent from both the registry and the
drag-target set. -/
theorem C3_clearAll_empties_and_roundtrip (s : AppState) (hnd : s.scene.Nodup) :
    (clearExistingModels s).loadedModels = [] ∧
    (clearExistingModels s).draggableObjects = [] ∧
    (clearExistingModels s).dragControls = [] ∧
    (∀ m ∈ mapValues s.loadedModels, m ∉ (clearExistingModels s).scene) ∧
    (∀ (name : String) (m : Model),
        mapGet (step (step s (Event.loadOk name m)) Event.clear).loadedModels name
          = none ∧
        setDraggable m
          ∉ (step (step s (Event.loadOk name m)) Event.clear).dragControls) := by
  refine ⟨?_, ?_, ?_, ?_, ?_⟩
  · simp [clearExistingModels, updateDragControls, mapValues]
  · simp [clearExistingModels, updateDragControls]
  · simp [clearExistingModels, updateDragControls, mapValues]
  · intro m hm
    simp only [clearExistingModels, updateDragControls]
    exact not_mem_foldl_sceneRemove _ _ hm
      (List.nodup_iff_count_le_one.mp hnd m)
  · intro name m
    constructor
    · simp [step, clearExistingModels, updateDragControls, mapGet]
    · simp [step, clearExistingModels, updateDragControls, mapValues]

/-- C3 witness: concretely, the model loaded as "blade" is removed from the
scene by the clear. -/
theorem C3_clearAll_witness :
    (loadModelSuccess initialState "blade" ⟨1, false⟩).scene.Nodup ∧
    (⟨1, true⟩ : Model)
      ∈ mapValues (loadModelSuccess initialState "blade" ⟨1, false⟩).loadedModels ∧
    (⟨1, true⟩ : Model)
      ∉ (clearExistingModels (loadModelSuccess initialState "blade" ⟨1, false⟩)).scene :=
  ⟨by decide, by decide,
   (C3_clearAll_empties_and_roundtrip _ (by decide)).2.2.2.1 ⟨1, true⟩ (by decide)⟩

/-- C4: a `loadModel` completion under an already-present name keeps the
registry size unchanged and maps the name to the newer object; concretely,
loading "blade" twice leaves the registry at size 1 mapping "blade" to the
second model. -/
theorem C4_duplicate_name_overwrites :
    (∀ (s : AppState) (name : String) (m : Model),
        (mapGet s.loadedModels name).isSome = true →
        (step s (Event.loadOk name m)).loadedModels.length
            = s.loadedModels.length ∧
        mapGet (step s (Event.loadOk name m)).loadedModels name
            = some (setDraggable m)) ∧
    ((run initialState
        [Event.loadOk "blade" ⟨1, false⟩,
         Event.loadOk "blade" ⟨2, false⟩]).loadedModels.length = 1 ∧
     mapGet (run initialState
        [Event.loadOk "blade" ⟨1, false⟩,
         Event.loadOk "blade" ⟨2, false⟩]).loadedModels "blade"
        = some ⟨2, true⟩) := by
  constructor
  · intro s name m h
    constructor
    · simp only [step, loadModelSuccess, updateDragControls]
      exact length_mapSet_of_isSome _ _ _ h
    · simp only [step, loadModelSuccess, updateDragControls]
      exact mapGet_mapSet_self _ _ _
  · constructor
    · decide
    · decide

/-- C4 witness: the general duplicate-name statement instantiated at a state
that already holds a "blade" entry. -/
theorem C4_duplicate_name_witness :
    (mapGet (loadModelSuccess initialState "blade" ⟨1, false⟩).loadedModels
        "blade").isSome = true ∧
    ((step (loadModelSuccess initialState "blade" ⟨1, false⟩)
        (Event.loadOk "blade" ⟨2, false⟩)).loadedModels.length
      = (loadModelSuccess initialState "blade" ⟨1, false⟩).loadedModels.length ∧
     mapGet (step (loadModelSuccess initialState "blade" ⟨1, false⟩)
        (Event.loadOk "blade" ⟨2, false⟩)).loadedModels "blade"
      = some (setDraggable ⟨2, false⟩)) :=
  ⟨by decide,
   C4_duplicate_name_overwrites.1 _ "blade" ⟨2, false⟩ (by decide)⟩

/-- C5: a failed load emits exactly one diagnostic and changes nothing else
(no registry mutation, no retry), and subsequent settled operations reach the
same registry, draggable array, scene and drag-target binding as if the
failure had never happened. -/
theorem C5_load_failure_is_local :
    (∀ (s : AppState) (name : String),
        step s (Event.loadFail name)
          = { s with log := s.log ++ [LogEntry.loadError name] }) ∧
    (∀ (s : AppState) (name : String) (evs : List Event),
        (run (step s (Event.loadFail name)) evs).loadedModels
            = (run s evs).loadedModels ∧
        (run (step s (Event.loadFail name)) evs).draggableObjects
            = (run s evs).draggableObjects ∧
        (run (step s (Event.loadFail name)) evs).scene = (run s evs).scene ∧
        (run (step s (Event.loadFail name)) evs).dragControls
            = (run s evs).dragControls) := by
  constructor
  · intro s name; rfl
  · intro s name evs
    have h : core (run (step s (Event.loadFail name)) evs) = core (run s evs) :=
      core_run evs rfl
    exact ⟨congrArg CoreState.loadedModels h,
           congrArg CoreState.draggableObjects h,
           congrArg CoreState.scene h,
           congrArg CoreState.dragControls h⟩

/-- C6 (amended): the app.js `onchange` handler clears the registry, the
draggable array and the drag-target binding, performs the same scene removals
as `clearExistingModels`, and then issues exactly one load request per
selected file, in order; `part_000`'s `handleFileUpload` likewise first
clears the registry and removes its models from the scene, and then runs the
upload loop — which mints one blob URL and makes one `loadModel` call per
file — starting from that cleared state. -/
theorem C6_onchange_clears_then_batch_loads :
    (∀ (s : AppState) (files : List FileEntry),
      (fileInputOnChange s files).1.loadedModels = [] ∧
      (fileInputOnChange s files).1.draggableObjects = [] ∧
      (fileInputOnChange s files).1.dragControls = [] ∧
      (fileInputOnChange s files).1.scene = (clearExistingModels s).scene ∧
      (fileInputOnChange s files).2
          = files.map (fun f => ⟨blobUrl f, stripExt f.name⟩) ∧
      (fileInputOnChange s files).2.length = files.length) ∧
    (∀ (s : P0State) (files : List (FileEntry × LoadResult)), s.scene.Nodup →
      (clearModelsP0 s).loadedModels = [] ∧
      (∀ m ∈ mapValues s.loadedModels, m ∉ (clearModelsP0 s).scene) ∧
      handleFileUploadP0 s files = files.foldl uploadStepP0 (clearModelsP0 s) ∧
      (handleFileUploadP0 s files).created
          = s.created ++ files.map (fun fr => blobUrl fr.1)) := by
  constructor
  · intro s files
    refine ⟨?_, ?_, ?_, ?_, rfl, ?_⟩ <;>
      simp [fileInputOnChange, clearExistingModels, updateDragControls, mapValues]
  · intro s files hnd
    refine ⟨rfl, ?_, rfl, ?_⟩
    · intro m hm
      simp only [clearModelsP0]
      exact not_mem_foldl_sceneRemove _ _ hm
        (List.nodup_iff_count_le_one.mp hnd m)
    · simp only [handleFileUploadP0]
      exact (uploadFoldP0_urls files _).1

/-- C6 witness: the part_000 clearing portion instantiated at a state holding
one loaded model. -/
theorem C6_onchange_witness :
    (loadModelP0 initP0 "blade" (LoadResult.ok ⟨3, false⟩)).1.scene.Nodup ∧
    (⟨3, false⟩ : Model)
      ∈ mapValues (loadModelP0 initP0 "blade" (LoadResult.ok ⟨3, false⟩)).1.loadedModels ∧
    (⟨3, false⟩ : Model)
      ∉ (clearModelsP0 (loadModelP0 initP0 "blade" (LoadResult.ok ⟨3, false⟩)).1).scene :=
  ⟨by decide, by decide,
   (C6_onchange_clears_then_batch_loads.2 _ [] (by decide)).2.1 ⟨3, false⟩ (by decide)⟩

/-- C6 counterexample: the `part_001` `onchange` handler issues the load
requests without clearing — after selecting a file, the previously loaded
entry is still in the registry. -/
theorem C6_cex_part001_does_not_clear :
    (onChangeP1 (loadModelSuccess initialState "old" ⟨7, false⟩)
        [⟨"new.glb"⟩]).1.loadedModels = [("old", ⟨7, true⟩)] ∧
    (onChangeP1 (loadModelSuccess initialState "old" ⟨7, false⟩)
        [⟨"new.glb"⟩]).1.loadedModels ≠ [] ∧
    (onChangeP1 (loadModelSuccess initialState "old" ⟨7, false⟩)
        [⟨"new.glb"⟩]).2.length = 1 := by
  decide

/-- C7: `clearExistingModels` is idempotent, and on a state whose registry,
draggable array and drag-target binding are already empty it is a no-op. -/
theorem C7_clearAll_idempotent :
    (∀ s : AppState,
        clearExistingModels (clearExistingModels s) = clearExistingModels s) ∧
    (∀ s : AppState, s.loadedModels = [] → s.draggableObjects = [] →
        s.dragControls = [] → clearExistingModels s = s) := by
  constructor
  · intro s
    obtain ⟨lm, dobj, sc, dc, lg, cr, rv⟩ := s
    simp [clearExistingModels, updateDragControls, mapValues]
  · intro s h1 h2 h3
    obtain ⟨lm, dobj, sc, dc, lg, cr, rv⟩ := s
    simp only at h1 h2 h3
    subst h1; subst h2; subst h3
    simp [clearExistingModels, updateDragControls, mapValues]

/-- C7 witness: the initial state is already empty and clearing it is a
no-op. -/
theorem C7_clearAll_witness :
    initialState.loadedModels = [] ∧ initialState.draggableObjects = [] ∧
    initialState.dragControls = [] ∧
    clearExistingModels initialState = initialState :=
  ⟨rfl, rfl, rfl, C7_clearAll_idempotent.2 initialState rfl rfl rfl⟩

/-- C8 (amended): in `part_000`'s `handleFileUpload`, every blob URL minted
for a selected file is revoked after that file's load settles; the `onchange`
paths of app.js/`part_003` (`fileInputOnChange`) and of `part_001`
(`onChangeP1`) mint the URLs but never revoke any, no matter which load
completions follow. -/
theorem C8_blob_url_revocation :
    (∀ (s : P0State) (files : List (FileEntry × LoadResult)),
        (handleFileUploadP0 s files).revoked
          = s.revoked ++ files.map (fun fr => blobUrl fr.1)) ∧
    (∀ (s : AppState) (files : List FileEntry) (evs : List Event),
        (run (fileInputOnChange s files).1 evs).revoked = s.revoked) ∧
    (∀ (s : AppState) (files : List FileEntry) (evs : List Event),
        (run (onChangeP1 s files).1 evs).created = s.created ++ files.map blobUrl ∧
        (run (onChangeP1 s files).1 evs).revoked = s.revoked) := by
  refine ⟨?_, ?_, ?_⟩
  · intro s files
    simp only [handleFileUploadP0]
    exact (uploadFoldP0_urls files _).2
  · intro s files evs
    rw [run_revoked]
    simp [fileInputOnChange, clearExistingModels, updateDragControls]
  · intro s files evs
    rw [run_created, run_revoked]
    simp [onChangeP1]

/-- C8 counterexample: uploading a file through the app.js handler mints a
blob URL, and after the load completes the URL has not been revoked. -/
theorem C8_cex_appjs_url_not_revoked :
    (run (fileInputOnChange initialState [⟨"part.glb"⟩]).1
        [Event.loadOk "part" ⟨1, false⟩]).created = ["blob:part.glb"] ∧
    (run (fileInputOnChange initialState [⟨"part.glb"⟩]).1
        [Event.loadOk "part" ⟨1, false⟩]).revoked = [] := by
  decide

/-- C9: in app.js, `draggableObjects` grows by exactly the loaded model on
every successful load, is untouched by failures, and is emptied only by the
clear; over any clear-free event sequence its length equals the prior length
plus the number of successful loads; after loading "blade" twice, the
superseded first model is still a raycast candidate of the AR `touchstart`
handler while no longer a registry value, and the array is longer than the
registry. -/
theorem C9_draggableObjects_append_only :
    (∀ (s : AppState) (name : String) (m : Model),
        (step s (Event.loadOk name m)).draggableObjects
          = s.draggableObjects ++ [setDraggable m]) ∧
    (∀ (s : AppState) (name : String),
        (step s (Event.loadFail name)).draggableObjects = s.draggableObjects) ∧
    (∀ s : AppState, (step s Event.clear).draggableObjects = []) ∧
    (∀ (s : AppState) (evs : List Event), countClears evs = 0 →
        (run s evs).draggableObjects.length
          = s.draggableObjects.length + countLoadOks evs) ∧
    (setDraggable ⟨1, false⟩
        ∈ touchstartCandidates (run initialState
            [Event.loadOk "blade" ⟨1, false⟩, Event.loadOk "blade" ⟨2, false⟩]) ∧
     setDraggable ⟨1, false⟩
        ∉ mapValues (run initialState
            [Event.loadOk "blade" ⟨1, false⟩,
             Event.loadOk "blade" ⟨2, false⟩]).loadedModels ∧
     setDraggable ⟨1, false⟩
        ∉ (run initialState
            [Event.loadOk "blade" ⟨1, false⟩,
             Event.loadOk "blade" ⟨2, false⟩]).dragControls ∧
     (run initialState
        [Event.loadOk "blade" ⟨1, false⟩,
         Event.loadOk "blade" ⟨2, false⟩]).draggableObjects.length = 2 ∧
     (run initialState
        [Event.loadOk "blade" ⟨1, false⟩,
         Event.loadOk "blade" ⟨2, false⟩]).loadedModels.length = 1) := by
  refine ⟨?_, ?_, ?_, ?_, ?_⟩
  · intro s name m
    simp [step, loadModelSuccess, updateDragControls]
  · intro s name; rfl
  · intro s
    simp [step, clearExistingModels, updateDragControls]
  · intro s evs h
    exact run_draggable_length evs s h
  · decide

/-- C9 witness: the clear-free length law instantiated on one success and one
failure. -/
theorem C9_append_only_witness :
    countClears [Event.loadOk "a" ⟨1, false⟩, Event.loadFail "b"] = 0 ∧
    (run initialState
        [Event.loadOk "a" ⟨1, false⟩, Event.loadFail "b"]).draggableObjects.length
      = initialState.draggableObjects.length
        + countLoadOks [Event.loadOk "a" ⟨1, false⟩, Event.loadFail "b"] :=
  ⟨by decide,
   C9_draggableObjects_append_only.2.2.2.1 initialState
     [Event.loadOk "a" ⟨1, false⟩, Event.loadFail "b"] (by decide)⟩

/-- C10: `part_000`'s `loadModel` resolves to the loaded model on success and,
on a loader error, logs once and resolves to `undefined` without rethrowing;
consequently `handleFileUpload` runs its loop over every selected file —
each file's blob URL is minted and revoked — regardless of load outcomes. -/
theorem C10_part000_loadModel_never_throws :
    (∀ (s : P0State) (name : String) (m : Model),
        (loadModelP0 s name (LoadResult.ok m)).2 = some m) ∧
    (∀ (s : P0State) (name msg : String),
        loadModelP0 s name (LoadResult.err msg)
          = ({ s with log := s.log ++ [LogEntry.loadError msg] }, none)) ∧
    (∀ (s : P0State) (files : List (FileEntry × LoadResult)),
        (handleFileUploadP0 s files).created
          = s.created ++ files.map (fun fr => blobUrl fr.1) ∧
        (handleFileUploadP0 s files).revoked
          = s.revoked ++ files.map (fun fr => blobUrl fr.1)) := by
  refine ⟨fun s name m => rfl, fun s name msg => rfl, ?_⟩
  intro s files
  simp only [handleFileUploadP0]
  exact uploadFoldP0_urls files _

end ProductViewer
